import Mathlib

/-!
Shallow embedding of `src/core/container.rs` from testcontainers-rs: the
`Container` lifecycle core. Container operations are embedded as pure
functions that return their results together with the list of observable
events they emit (calls issued to the docker client, and diagnostic log
records). The process environment is a lookup function, read freshly at
each use, exactly as `std::env::var` is in the source. Rust panics are
modelled as `Except.error`, and Rust's guarantee that an owned value is
dropped exactly once when its scope ends (on normal fall-through or during
unwinding) is modelled by explicit scope-running definitions.
-/

namespace Testcontainers

/-- Observable events of the core: the calls it issues to the docker client
(`stop`, `rm`, `start`, `logs`, keyed by container id) and its diagnostic
log records (`log::debug!` / `log::warn!`). -/
inductive Event where
  | stopCall (id : String) : Event
  | rmCall (id : String) : Event
  | startCall (id : String) : Event
  | logsCall (id : String) : Event
  | logDebug (msg : String) : Event
  | logWarn (msg : String) : Event
  deriving DecidableEq

/-- An event that is a call issued to the docker client (not a log record). -/
def Event.isClientCall : Event → Bool
  | .stopCall _ => true
  | .rmCall _ => true
  | .startCall _ => true
  | .logsCall _ => true
  | .logDebug _ => false
  | .logWarn _ => false

/-- A diagnostic log record. -/
def Event.isDiagnostic : Event → Bool
  | .logDebug _ => true
  | .logWarn _ => true
  | _ => false

/-- A warning-severity log record. -/
def Event.isLogWarnB : Event → Bool
  | .logWarn _ => true
  | _ => false

/-- An informational (debug-severity) log record. -/
def Event.isLogDebugB : Event → Bool
  | .logDebug _ => true
  | _ => false

/-- A terminal teardown action on the container with the given id: the client
receiving `stop(id)` or `rm(id)`. -/
def Event.isTerminalFor (id : String) : Event → Bool
  | .stopCall i => i == id
  | .rmCall i => i == id
  | _ => false

/-- The process environment, as consulted by `std::env::var`: a lookup from
variable name to its value, `none` when the variable is unset. -/
abbrev Env := String → Option String

/-- Rust std `str::parse::<bool>` (the `FromStr` impl for `bool`, used by
`var.parse()` in `Drop::drop`): it accepts exactly the strings "true" and
"false"; every other string fails to parse. -/
def parseBool (s : String) : Option Bool :=
  if s = "true" then some true
  else if s = "false" then some false
  else none

/-- The policy value computed in `Drop::drop` (container.rs lines 145-148):
`var("KEEP_CONTAINERS").ok().and_then(|v| v.parse().ok()).unwrap_or(false)`. -/
def keepContainers (env : Env) : Bool :=
  ((env "KEEP_CONTAINERS").bind parseBool).getD false

/-- The port mapping the docker client reports for one container; ports are
`u16` in the source, and since no arithmetic is ever performed on them they
are embedded as `Nat`. -/
structure Ports where
  mapping : Nat → Option Nat

/-- `Ports::map_to_host_port`: resolve an internal port over the mapping. -/
def Ports.map_to_host_port (p : Ports) (internal_port : Nat) : Option Nat :=
  p.mapping internal_port

/-- The `Docker` client capability as the core sees it. Its read-only query
`ports(id)` is embedded as the per-container mapping table; its effectful
operations (`stop`, `rm`, `start`, `logs`) are recorded as the `Event`s the
container operations emit when invoking them. -/
structure Docker where
  ports : String → Ports

/-- The `Image` capability: `wait_until_ready` receives the container handle
(identified here by its id) and either returns, or fails by panicking, which
is modelled as `Except.error` carrying the panic message. -/
structure Image where
  wait_until_ready : String → Except String Unit

/-- `Container<'d, D, I>` (container.rs lines 24-33): an id, a reference to
the docker client, and the owned image value. -/
structure Container where
  id : String
  docker_client : Docker
  image : Image

/-- `Container::stop` (lines 118-122): a debug log, then the client receives
the stop call for this container's id. -/
def Container.stop (c : Container) : List Event :=
  [Event.logDebug ("Stopping docker container " ++ c.id),
   Event.stopCall c.id]

/-- `Container::rm` (lines 128-132): a debug log, then the client receives
the rm call for this container's id. -/
def Container.rm (c : Container) : List Event :=
  [Event.logDebug ("Deleting docker container " ++ c.id),
   Event.rmCall c.id]

/-- `Container::start` (lines 124-126). -/
def Container.start (c : Container) : List Event :=
  [Event.startCall c.id]

/-- `Container::logs` (lines 63-65). -/
def Container.logs (c : Container) : List Event :=
  [Event.logsCall c.id]

/-- `Container::get_host_port` (lines 72-97): resolves the internal port over
the client's already-declared mapping table, emits exactly one diagnostic
(debug when resolved, warning when not), and returns the resolution. The
method takes `&self` and mutates nothing, so the (unchanged) container is
returned alongside the result. -/
def Container.get_host_port (c : Container) (internal_port : Nat) :
    Option Nat × Container × List Event :=
  let resolved_port := (c.docker_client.ports c.id).map_to_host_port internal_port
  match resolved_port with
  | some port =>
      (some port, c,
        [Event.logDebug ("Resolved port " ++ toString internal_port ++ " to "
          ++ toString port ++ " for container " ++ c.id)])
  | none =>
      (none, c,
        [Event.logWarn ("Unable to resolve port " ++ toString internal_port
          ++ " for container " ++ c.id)])

/-- `Container::block_until_ready` (lines 110-116): the events emitted, plus
`some e` when the readiness predicate panicked with `e` (in which case the
trailing "now ready" log is never reached). -/
def Container.block_until_ready (c : Container) : List Event × Option String :=
  let waiting := Event.logDebug ("Waiting for container " ++ c.id ++ " to be ready")
  match c.image.wait_until_ready c.id with
  | Except.ok _ =>
      ([waiting, Event.logDebug ("Container " ++ c.id ++ " is now ready!")], none)
  | Except.error e => ([waiting], some e)

/-- `impl Drop for Container`, `fn drop` (lines 144-154): read KEEP_CONTAINERS
freshly from the environment; a value that parses to `true` stops the
container, anything else removes it. -/
def Container.drop (env : Env) (c : Container) : List Event :=
  let keep_container := keepContainers env
  match keep_container with
  | true => c.stop
  | false => c.rm

/-- `Container::new` (lines 45-55): builds the `Container` value, blocks on
readiness, then returns the container. When the readiness predicate panics,
the panic unwinds out of `new`; by Rust unwind semantics the already-built
local `container` is dropped on that path, so its `Drop` trace (reading the
environment at that moment) is appended and the failure propagates — no
container reaches the caller. -/
def Container.new (env : Env) (id : String) (docker_client : Docker) (image : Image) :
    List Event × Except String Container :=
  let container : Container := { id := id, docker_client := docker_client, image := image }
  match container.block_until_ready with
  | (evs, none) => (evs, Except.ok container)
  | (evs, some e) => (evs ++ Container.drop env container, Except.error e)

/-- How the owning scope of a container can end: normal fall-through, or a
panic unwinding out of it; either way the body has emitted some events. -/
inductive ScopeExit where
  | normal (events : List Event) : ScopeExit
  | unwind (events : List Event) (msg : String) : ScopeExit
  deriving DecidableEq

/-- The events the scope body emitted before exiting. -/
def ScopeExit.events : ScopeExit → List Event
  | .normal evs => evs
  | .unwind evs _ => evs

/-- Rust scope-exit semantics for the owning scope of a container: whether the
body falls through normally or is exited by an unwinding panic, the owned
value is dropped exactly once, at the moment the scope ends, with the
environment read at that moment. -/
def runScope (env : Env) (c : Container) (body : ScopeExit) : List Event :=
  body.events ++ Container.drop env c

/-- The terminal teardown performed at the end of the owning scope of a
container constructed by `Container::new` under `envCtor` and dropped under
`envDrop` (empty when construction failed, since then no container reached
the caller's scope). -/
def teardownOf (envCtor envDrop : Env) (id : String) (d : Docker) (img : Image) :
    List Event :=
  match (Container.new envCtor id d img).2 with
  | Except.ok c => Container.drop envDrop c
  | Except.error _ => []

/-- Modelled from the spec: the state the Runtime Client capability tracks
externally for each instance id ("runtime state tracked externally by the
client"); the concrete client implementation is not part of this crate's
core source. `running i` — instance `i` is running; `present i` — instance
`i`'s resources still exist. -/
structure ClientState where
  running : String → Bool
  present : String → Bool

/-- Modelled from the spec: the client's `stop(id)` operation — "asks the
client to transition the instance to stopped, but does not remove its
resources; idempotent, safe to call multiple times". -/
def clientStop (s : ClientState) (id : String) : ClientState :=
  { s with running := fun i => if i = id then false else s.running i }

/-- `Container::stop` together with its spec-modelled effect on the client:
the client state after processing the stop call, plus the events emitted. -/
def Container.stopEffect (c : Container) (s : ClientState) : ClientState × List Event :=
  (clientStop s c.id, c.stop)

/-- Whether an `Except` result is a success. -/
def exIsOk : Except String Container → Bool
  | Except.ok _ => true
  | Except.error _ => false

/-- The environment with every variable, KEEP_CONTAINERS included, unset. -/
def envUnset : Env := fun _ => none

/-- The environment with KEEP_CONTAINERS set to the given string. -/
def envKeep (v : String) : Env :=
  fun k => if k = "KEEP_CONTAINERS" then some v else none

/-- A client whose mapping table for container "abc123" exposes 80 to 49153
and nothing else. -/
def sampleDocker : Docker :=
  { ports := fun id =>
      { mapping := fun p => if id = "abc123" ∧ p = 80 then some 49153 else none } }

/-- An image whose readiness predicate returns immediately. -/
def readyImage : Image :=
  { wait_until_ready := fun _ => Except.ok () }

/-- An image whose readiness predicate fails by panicking. -/
def failingImage : Image :=
  { wait_until_ready := fun _ => Except.error "readiness failure" }

/-- The container with id "abc123" over `sampleDocker` and `readyImage`. -/
def sampleContainer : Container :=
  { id := "abc123", docker_client := sampleDocker, image := readyImage }

/-- A client state in which "abc123" is running and present. -/
def sampleState : ClientState :=
  { running := fun _ => true, present := fun _ => true }

/-- The drop handler performs exactly one terminal action, whatever the
environment says. -/
theorem drop_one_terminal (env : Env) (c : Container) :
    ((Container.drop env c).filter (Event.isTerminalFor c.id)).length = 1 := by
  unfold Container.drop
  cases keepContainers env <;>
    simp [Container.stop, Container.rm, Event.isTerminalFor]

/-- Claim C1: for every container, environment and scope body, if the body
itself performs no terminal action on the container's id, then the full
lifetime trace of the owning scope — whether it is exited by normal
fall-through or by an unwinding panic — contains exactly one terminal
teardown action (a stop or a remove) for that id, contributed by the drop
that fires at the moment the scope ends: never zero, never more than one. -/
theorem drop_exactly_once_per_scope (env : Env) (c : Container) (body : ScopeExit)
    (h : (body.events.filter (Event.isTerminalFor c.id)).length = 0) :
    ((runScope env c body).filter (Event.isTerminalFor c.id)).length = 1 := by
  unfold runScope
  rw [List.filter_append, List.length_append, h]
  simpa using drop_one_terminal env c

/-- Witness for C1, exercising the unwind exit with KEEP_CONTAINERS unset. -/
theorem drop_exactly_once_per_scope_witness :
    (((ScopeExit.unwind [] "boom").events.filter
        (Event.isTerminalFor sampleContainer.id)).length = 0) ∧
    ((runScope envUnset sampleContainer (ScopeExit.unwind [] "boom")).filter
        (Event.isTerminalFor sampleContainer.id)).length = 1 :=
  ⟨by decide,
   drop_exactly_once_per_scope envUnset sampleContainer
     (ScopeExit.unwind [] "boom") (by decide)⟩

/-- Claim C2: whenever `Container::new` yields a container to the caller, the
image's readiness predicate has already been invoked on that very handle and
has completed successfully, and the handle is exactly the value built from
the given id, client and image — so no caller-observable container exists
that has not passed its readiness predicate. -/
theorem new_returns_only_ready (env : Env) (id : String) (d : Docker) (img : Image)
    (c : Container) (h : (Container.new env id d img).2 = Except.ok c) :
    img.wait_until_ready c.id = Except.ok () ∧
    c.id = id ∧ c.docker_client = d ∧ c.image = img := by
  unfold Container.new Container.block_until_ready at h
  cases hw : img.wait_until_ready id with
  | ok u =>
      cases u
      simp only [hw] at h
      cases h
      exact ⟨hw, rfl, rfl, rfl⟩
  | error e =>
      simp only [hw] at h
      cases h

/-- Witness for C2: constructing "abc123" over the sample client with the
immediately-ready image succeeds and yields the sample container. -/
theorem new_returns_only_ready_witness :
    readyImage.wait_until_ready sampleContainer.id = Except.ok () ∧
    sampleContainer.id = "abc123" ∧
    sampleContainer.docker_client = sampleDocker ∧
    sampleContainer.image = readyImage :=
  new_returns_only_ready envUnset "abc123" sampleDocker readyImage sampleContainer rfl

/-- Counterexample to claim C3 as stated: dropping the container with
KEEP_CONTAINERS unset makes the client receive the remove call, but no stop
call at all — so the client does not receive "a stop call followed by a
remove call". -/
theorem drop_unset_no_stop_call :
    Event.rmCall "abc123" ∈ Container.drop envUnset sampleContainer ∧
    Event.stopCall "abc123" ∉ Container.drop envUnset sampleContainer := by
  decide

/-- Claim C3 as amended: for every container dropped while the teardown
policy value is absent or non-truthy, the runtime client receives exactly
one call — the remove call for the container's id; the core issues no
separate stop call on this path (stopping is left to the client's removal
itself). -/
theorem drop_unset_client_calls (env : Env) (c : Container)
    (h : keepContainers env = false) :
    (Container.drop env c).filter Event.isClientCall = [Event.rmCall c.id] := by
  unfold Container.drop
  rw [h]
  simp [Container.rm, Event.isClientCall]

/-- Witness for the amended C3, at the unset environment. -/
theorem drop_unset_client_calls_witness :
    keepContainers envUnset = false ∧
    (Container.drop envUnset sampleContainer).filter Event.isClientCall =
      [Event.rmCall sampleContainer.id] :=
  ⟨by decide, drop_unset_client_calls envUnset sampleContainer (by decide)⟩

/-- Claim C4: when the teardown policy value is truthy the client receives
exactly a stop call and no removal call; for every other policy value the
teardown branch issues the removal call. -/
theorem drop_policy_branches (env : Env) (c : Container) :
    (Container.drop env c).filter Event.isClientCall =
      (if keepContainers env then [Event.stopCall c.id] else [Event.rmCall c.id]) := by
  unfold Container.drop
  cases h : keepContainers env <;>
    simp [h, Container.stop, Container.rm, Event.isClientCall]

/-- Claim C5: `get_host_port p` returns `some h` iff the client's current
mapping table for this container's id maps `p` to `h`; for every `p` outside
the declared exposure set it returns `none`; and the call leaves the
container (hence the consulted mapping table) unchanged — it never causes a
port to become exposed. -/
theorem get_host_port_resolution (c : Container) (p : Nat) :
    (∀ h, (c.get_host_port p).1 = some h ↔
        (c.docker_client.ports c.id).map_to_host_port p = some h) ∧
    ((c.docker_client.ports c.id).map_to_host_port p = none →
        (c.get_host_port p).1 = none) ∧
    (c.get_host_port p).2.1 = c := by
  unfold Container.get_host_port
  cases hm : (c.docker_client.ports c.id).map_to_host_port p <;> simp [hm]

/-- Witness for C5: on the sample client, port 80 resolves to 49153 and the
undeclared port 81 resolves to nothing. -/
theorem get_host_port_resolution_witness :
    (sampleContainer.get_host_port 80).1 = some 49153 ∧
    (sampleContainer.get_host_port 81).1 = none :=
  ⟨((get_host_port_resolution sampleContainer 80).1 49153).mpr (by decide),
   (get_host_port_resolution sampleContainer 81).2.1 (by decide)⟩

/-- Counterexample to claim C6 as stated: with a readiness predicate that
fails, construction does fail and no container is produced — but a teardown
action IS triggered for the id: the local container already built inside the
constructor is dropped during unwinding, issuing the remove call. -/
theorem new_failure_triggers_teardown :
    exIsOk (Container.new envUnset "abc123" sampleDocker failingImage).2 = false ∧
    Event.rmCall "abc123" ∈ (Container.new envUnset "abc123" sampleDocker failingImage).1 := by
  decide

/-- Claim C6 as amended: if the readiness predicate signals an error during
construction, construction fails and propagates exactly that error to the
caller and no container value is produced for the caller; however, the
locally built container is dropped while the failure unwinds out of the
constructor, so exactly one teardown action is triggered for that id. -/
theorem new_failure_propagates (env : Env) (id : String) (d : Docker) (img : Image)
    (e : String) (h : img.wait_until_ready id = Except.error e) :
    (Container.new env id d img).2 = Except.error e ∧
    (((Container.new env id d img).1).filter (Event.isTerminalFor id)).length = 1 := by
  unfold Container.new Container.block_until_ready
  simp only [h]
  refine ⟨trivial, ?_⟩
  rw [List.filter_append, List.length_append]
  simpa [Event.isTerminalFor] using
    drop_one_terminal env { id := id, docker_client := d, image := img }

/-- Witness for the amended C6, at the failing image and unset environment. -/
theorem new_failure_propagates_witness :
    failingImage.wait_until_ready "abc123" = Except.error "readiness failure" ∧
    ((Container.new envUnset "abc123" sampleDocker failingImage).2 =
        Except.error "readiness failure" ∧
      (((Container.new envUnset "abc123" sampleDocker failingImage).1).filter
          (Event.isTerminalFor "abc123")).length = 1) :=
  ⟨rfl, new_failure_propagates envUnset "abc123" sampleDocker failingImage
          "readiness failure" rfl⟩

/-- Claim C7: the teardown performed at scope end depends only on the
environment at the moment of teardown, never on the environment at
construction time — two runs whose configurations differ at construction but
agree at drop time take the same teardown action. -/
theorem teardown_reads_env_at_drop (envC1 envC2 envD : Env) (id : String)
    (d : Docker) (img : Image) :
    teardownOf envC1 envD id d img = teardownOf envC2 envD id d img := by
  unfold teardownOf Container.new Container.block_until_ready
  cases h : img.wait_until_ready id <;> simp [h]

/-- Claim C8: invoking `stop` twice in succession leaves the client in the
same state as invoking it once (no duplicate observable state change and no
error — the operation is total in the model, as the spec's client `stop` is
infallible-by-contract), and `stop` never removes resources: every instance
stays present. -/
theorem stop_idempotent (c : Container) (s : ClientState) :
    (c.stopEffect (c.stopEffect s).1).1 = (c.stopEffect s).1 ∧
    (∀ i, ((c.stopEffect s).1).present i = s.present i) ∧
    (c.stopEffect (c.stopEffect s).1).2 = (c.stopEffect s).2 := by
  refine ⟨?_, fun i => rfl, rfl⟩
  unfold Container.stopEffect clientStop
  simp only [ClientState.mk.injEq]
  refine ⟨?_, trivial⟩
  funext i
  by_cases h : i = c.id <;> simp [h]

/-- Witness for C8 at the sample container and client state. -/
theorem stop_idempotent_witness :
    (sampleContainer.stopEffect (sampleContainer.stopEffect sampleState).1).1 =
      (sampleContainer.stopEffect sampleState).1 :=
  (stop_idempotent sampleContainer sampleState).1

/-- Claim C9: `get_host_port` alters no container state — the container (its
id, client reference and image) comes back unchanged — and emits exactly one
diagnostic, whose severity is warning exactly when the port is unresolved
and informational (debug) exactly when it is resolved. -/
theorem get_host_port_frame_diag (c : Container) (p : Nat) :
    (c.get_host_port p).2.1 = c ∧
    (c.get_host_port p).2.2.length = 1 ∧
    (∀ e ∈ (c.get_host_port p).2.2,
      e.isDiagnostic = true ∧
      e.isLogWarnB = ((c.get_host_port p).1).isNone ∧
      e.isLogDebugB = ((c.get_host_port p).1).isSome) := by
  unfold Container.get_host_port
  cases hm : (c.docker_client.ports c.id).map_to_host_port p <;>
    simp [hm, Event.isDiagnostic, Event.isLogWarnB, Event.isLogDebugB]

/-- Witness for C9 at the sample container, resolved and unresolved cases. -/
theorem get_host_port_frame_diag_witness :
    (sampleContainer.get_host_port 80).2.1 = sampleContainer ∧
    (sampleContainer.get_host_port 81).2.2.length = 1 :=
  ⟨(get_host_port_frame_diag sampleContainer 80).1,
   (get_host_port_frame_diag sampleContainer 81).2.1⟩

/-- The policy flag is truthy exactly when KEEP_CONTAINERS is the exact
string "true". -/
theorem keepContainers_eq_true_iff (env : Env) :
    keepContainers env = true ↔ env "KEEP_CONTAINERS" = some "true" := by
  unfold keepContainers parseBool
  cases h : env "KEEP_CONTAINERS" with
  | none => simp [h]
  | some v =>
      simp only [h, Option.some.injEq, Option.bind_some]
      by_cases hv : v = "true"
      · simp [hv]
      · by_cases hv2 : v = "false" <;> simp [hv, hv2]

/-- Claim C10: KEEP_CONTAINERS is parsed strictly — the drop handler selects
the stop-only branch iff the variable is the exact string "true"; any other
value (such as "TRUE", "1", "yes", "false") and the unset case fail strict
parsing or parse to false, and select the removal branch. -/
theorem keep_containers_strict (env : Env) (c : Container) :
    ((Container.drop env c).filter Event.isClientCall = [Event.stopCall c.id] ↔
      env "KEEP_CONTAINERS" = some "true") ∧
    (env "KEEP_CONTAINERS" ≠ some "true" →
      (Container.drop env c).filter Event.isClientCall = [Event.rmCall c.id]) := by
  have hb := drop_policy_branches env c
  constructor
  · rw [hb]
    cases h : keepContainers env
    · rw [← keepContainers_eq_true_iff]
      simp [h]
    · rw [← keepContainers_eq_true_iff]
      simp [h]
  · intro hne
    rw [hb]
    have : keepContainers env = false := by
      cases h : keepContainers env
      · rfl
      · exact absurd ((keepContainers_eq_true_iff env).mp h) hne
    simp [this]

/-- Witness for C10: the value "TRUE" fails strict parsing and selects the
removal branch. -/
theorem keep_containers_strict_witness :
    (envKeep "TRUE") "KEEP_CONTAINERS" ≠ some "true" ∧
    (Container.drop (envKeep "TRUE") sampleContainer).filter Event.isClientCall =
      [Event.rmCall sampleContainer.id] :=
  ⟨by decide, (keep_containers_strict (envKeep "TRUE") sampleContainer).2 (by decide)⟩

end Testcontainers
